import Mathlib

/-!
Shallow embedding of the weather-to-outfit decision engine of the sunset-walk
planner: the pure logic of `src/lib/utils/locale.ts`,
`src/lib/mcp/weather-server.ts`, the forecast route handler and the two
live-check route handlers.  JavaScript numbers are modelled as rationals and
the string operations `toLowerCase` / `includes` character-wise.  Network
fetches are I/O; every function below receives the fetched readings as
arguments and models the source's pure computation on them.
-/

/-- JS `String.prototype.toLowerCase` (per-character case mapping, written on
the character list so that it evaluates inside the kernel). -/
def jsToLower (s : String) : String := String.mk (s.data.map Char.toLower)

/-- Char-list helper: `pat` occurs at the start of `s`. -/
def charsStartWith : List Char → List Char → Bool
  | [], _ => true
  | _ :: _, [] => false
  | p :: ps, c :: cs => p == c && charsStartWith ps cs

/-- Char-list helper: `pat` occurs contiguously somewhere in `s`. -/
def charsHaveSub (pat s : List Char) : Bool :=
  match s with
  | [] => charsStartWith pat []
  | _ :: rest => charsStartWith pat s || charsHaveSub pat rest

/-- JS `s.includes(pat)` (substring containment). -/
def jsIncludes (s pat : String) : Bool := charsHaveSub pat.toList s.toList

/-- JS `Math.abs`, written by cases so that it evaluates inside the kernel;
`aux_jsAbs_eq_abs` identifies it with the absolute value. -/
def jsAbs (x : ℚ) : ℚ := if x < 0 then -x else x

/-- `FAHRENHEIT_COUNTRIES` from src/lib/utils/locale.ts. -/
def FAHRENHEIT_COUNTRIES : List String :=
  ["United States", "United States of America", "USA", "US", "Liberia", "Myanmar", "Burma"]

/-- The check `FAHRENHEIT_COUNTRIES.some(fc => country.toLowerCase().includes(fc.toLowerCase()))`
written identically inside both `getTemperatureUnit` and `getSpeedUnit`
(src/lib/utils/locale.ts). -/
def usesFahrenheit (country : String) : Bool :=
  FAHRENHEIT_COUNTRIES.any fun fc => jsIncludes (jsToLower country) (jsToLower fc)

/-- `getTemperatureUnit` from src/lib/utils/locale.ts. -/
def getTemperatureUnit (country : String) : String :=
  if usesFahrenheit country then "fahrenheit" else "celsius"

/-- `getSpeedUnit` from src/lib/utils/locale.ts. -/
def getSpeedUnit (country : String) : String :=
  if usesFahrenheit country then "mph" else "kmh"

/-- `getWeatherCondition` (written identically in src/lib/mcp/weather-server.ts
and in the forecast route handler). -/
def getWeatherCondition (code : ℤ) : String :=
  if code = 0 then "Clear sky"
  else if code ≤ 3 then "Partly cloudy"
  else if code ≤ 48 then "Foggy"
  else if code ≤ 67 then "Rainy"
  else if code ≤ 77 then "Snowy"
  else if code ≤ 82 then "Rain showers"
  else if code ≤ 86 then "Snow showers"
  else if code ≤ 99 then "Thunderstorm"
  else "Partly cloudy"

/-- `calculateWindChill` from src/lib/mcp/weather-server.ts.  The source raises
the wind speed to the real exponent 0.16 via `Math.pow(windSpeed, 0.16)`; that
transcendental map is abstracted as the argument `pw`, applied exactly where
the source applies `Math.pow(·, 0.16)`. -/
def calculateWindChill (pw : ℚ → ℚ) (temp windSpeed : ℚ) (unit : String) : ℚ :=
  if unit == "celsius" then
    if temp > 10 ∨ windSpeed < 4.8 then temp
    else 13.12 + 0.6215 * temp - 11.37 * pw windSpeed + 0.3965 * temp * pw windSpeed
  else
    if temp > 50 ∨ windSpeed < 3 then temp
    else 35.74 + 0.6215 * temp - 35.75 * pw windSpeed + 0.4275 * temp * pw windSpeed

/-- The temperature reason template literal of `shouldUpdateOutfit`. -/
def tempChangeReason (d : ℚ) : String := s!"Temperature changed by {d}°F"

/-- The wind reason template literal of `shouldUpdateOutfit`. -/
def windChangeReason (d : ℚ) : String := s!"Wind speed changed by {d} mph"

/-- The precipitation reason template literal of `shouldUpdateOutfit`. -/
def precipChangeReason (d : ℚ) : String := s!"Precipitation probability changed by {d}%"

structure UpdateOutfitDecision where
  shouldUpdate : Bool
  reasons : List String
  severity : String
deriving DecidableEq

/-- `shouldUpdateOutfit` from src/lib/mcp/weather-server.ts. -/
def shouldUpdateOutfit (originalTemp currentTemp originalWindSpeed currentWindSpeed
    originalPrecipitation currentPrecipitation : ℚ) : UpdateOutfitDecision :=
  let tempChange := jsAbs (currentTemp - originalTemp)
  let windChange := jsAbs (currentWindSpeed - originalWindSpeed)
  let precipChange := jsAbs (currentPrecipitation - originalPrecipitation)
  ⟨decide (tempChange > 5 ∨ windChange > 5 ∨ precipChange > 20),
   (if tempChange > 5 then [tempChangeReason tempChange] else []) ++
   (if windChange > 5 then [windChangeReason windChange] else []) ++
   (if precipChange > 20 then [precipChangeReason precipChange] else []),
   if tempChange > 10 ∨ windChange > 10 ∨ precipChange > 40 then "high" else "moderate"⟩

structure WeatherData where
  temperature : ℚ
  condition : String
  precipitation : ℚ
  windSpeed : ℚ
deriving DecidableEq

structure FactorComparison where
  forecast : ℚ
  actual : ℚ
  difference : ℚ
  significant : Bool
deriving DecidableEq

structure ConditionComparison where
  forecast : String
  actual : String
  changed : Bool
deriving DecidableEq

structure WeatherComparison where
  temperature : FactorComparison
  windSpeed : FactorComparison
  precipitation : FactorComparison
  condition : ConditionComparison
deriving DecidableEq

/-- The pure comparison core of `compareForecastToActual`
(src/lib/mcp/weather-server.ts): the `current` reading, fetched over the
network in the source, is passed in as an argument. -/
def compareSnapshots (forecastTemp : ℚ) (forecastCondition : String)
    (forecastPrecipitation forecastWindSpeed : ℚ) (current : WeatherData) : WeatherComparison :=
  let tempDiff := current.temperature - forecastTemp
  let windDiff := current.windSpeed - forecastWindSpeed
  let precipDiff := current.precipitation - forecastPrecipitation
  ⟨⟨forecastTemp, current.temperature, tempDiff, decide (jsAbs tempDiff > 5)⟩,
   ⟨forecastWindSpeed, current.windSpeed, windDiff, decide (jsAbs windDiff > 5)⟩,
   ⟨forecastPrecipitation, current.precipitation, precipDiff, decide (jsAbs precipDiff > 20)⟩,
   ⟨forecastCondition, current.condition,
    decide (jsToLower forecastCondition ≠ jsToLower current.condition)⟩⟩

/-- The temperature direction word chosen inside `generateComparisonSummary`. -/
def directionWordTemp (c : WeatherComparison) : String :=
  if c.temperature.difference > 0 then "warmer" else "cooler"

/-- The wind direction word chosen inside `generateComparisonSummary`. -/
def directionWordWind (c : WeatherComparison) : String :=
  if c.windSpeed.difference > 0 then "windier" else "calmer"

/-- The sentence fragments pushed by `generateComparisonSummary`
(src/lib/mcp/weather-server.ts); the source joins them with ". ". -/
def generateComparisonSummaryParts (c : WeatherComparison) : List String :=
  let tempPart :=
    if c.temperature.significant then
      let m := jsAbs c.temperature.difference
      let d := directionWordTemp c
      let a := c.temperature.actual
      let f := c.temperature.forecast
      s!"Temperature is {m}° {d} than predicted ({a}° vs {f}°)"
    else
      let a := c.temperature.actual
      s!"Temperature is close to forecast ({a}°)"
  let parts := [tempPart]
  let parts :=
    if c.windSpeed.significant then
      let m := jsAbs c.windSpeed.difference
      let d := directionWordWind c
      let a := c.windSpeed.actual
      let f := c.windSpeed.forecast
      parts ++ [s!"Wind is {m} {d} than expected ({a} vs {f})"]
    else parts
  let parts :=
    if c.precipitation.significant then
      let a := c.precipitation.actual
      let f := c.precipitation.forecast
      parts ++ [s!"Precipitation probability changed significantly ({a}% vs {f}%)"]
    else parts
  let parts :=
    if c.condition.changed then
      let f := c.condition.forecast
      let a := c.condition.actual
      parts ++ [s!"Conditions changed from {f} to {a}"]
    else parts
  parts

/-- `generateComparisonSummary` from src/lib/mcp/weather-server.ts. -/
def generateComparisonSummary (c : WeatherComparison) : String :=
  String.intercalate ". " (generateComparisonSummaryParts c)

structure CompareForecastResult where
  comparison : WeatherComparison
  hasSignificantChanges : Bool
  summary : String
deriving DecidableEq

/-- The value returned by `compareForecastToActual` given the fetched current
reading. -/
def compareForecastToActualPure (forecastTemp : ℚ) (forecastCondition : String)
    (forecastPrecipitation forecastWindSpeed : ℚ) (current : WeatherData) : CompareForecastResult :=
  let comparison :=
    compareSnapshots forecastTemp forecastCondition forecastPrecipitation forecastWindSpeed current
  ⟨comparison,
   comparison.temperature.significant || comparison.windSpeed.significant ||
     comparison.precipitation.significant,
   generateComparisonSummary comparison⟩

structure OutfitRecommendations where
  outerwear : List String
  shoes : List String
  accessories : List String
deriving DecidableEq

/-- The temperature-band base outerwear shared (with their respective threshold
literals) by all three generator variants.  The forecast and first live-check
handlers use 75/60/45/32; the second live-check handler passes its
unit-dependent thresholds. -/
def baseOuterwear (temperature hotT warmT coolT coldT : ℚ) : List String :=
  if temperature ≥ hotT then ["Light breathable shirt", "Tank top or t-shirt"]
  else if temperature ≥ warmT then ["Light jacket", "Long sleeve shirt"]
  else if temperature ≥ coolT then ["Medium jacket", "Sweater or hoodie"]
  else if temperature ≥ coldT then ["Heavy coat", "Insulated jacket"]
  else ["Winter coat", "Thermal layers"]

/-- The forecast handler's precipitation rule: rain bundle above 50% or on a
"rain" label, otherwise a conditional light rain jacket above 20%. -/
def applyPrecipForecast (w : WeatherData) (r : OutfitRecommendations) : OutfitRecommendations :=
  if w.precipitation > 50 ∨ jsIncludes (jsToLower w.condition) "rain" = true then
    ⟨r.outerwear ++ ["Rain jacket"], r.shoes ++ ["Waterproof boots"],
     r.accessories ++ ["Umbrella"]⟩
  else if w.precipitation > 20 then
    ⟨r.outerwear, r.shoes, r.accessories ++ ["Light rain jacket (just in case)"]⟩
  else r

/-- The live-check handlers' precipitation rule: umbrella for any precipitation
or a "rain" label, rain jacket and waterproof boots only above 5. -/
def applyPrecipLive (w : WeatherData) (r : OutfitRecommendations) : OutfitRecommendations :=
  if w.precipitation > 0 ∨ jsIncludes (jsToLower w.condition) "rain" = true then
    ⟨(if w.precipitation > 5 then r.outerwear ++ ["Rain jacket"] else r.outerwear),
     (if w.precipitation > 5 then r.shoes ++ ["Waterproof boots"] else r.shoes),
     r.accessories ++ ["Umbrella"]⟩
  else r

/-- The snow rule, written identically in all three generator variants. -/
def applySnow (w : WeatherData) (r : OutfitRecommendations) : OutfitRecommendations :=
  if jsIncludes (jsToLower w.condition) "snow" = true then
    ⟨r.outerwear ++ ["Waterproof winter coat"], r.shoes ++ ["Insulated winter boots"],
     r.accessories ++ ["Winter hat", "Gloves", "Scarf"]⟩
  else r

/-- The wind rule: windbreaker above the windy threshold, ear warmers
additionally below the comfort floor (thresholds 15/50 in the first two
variants, unit-dependent in the third). -/
def applyWind (w : WeatherData) (windyT comfortT : ℚ) (r : OutfitRecommendations) : OutfitRecommendations :=
  if w.windSpeed > windyT then
    ⟨r.outerwear ++ ["Windbreaker"], r.shoes,
     if w.temperature < comfortT then r.accessories ++ ["Ear warmers or hat"] else r.accessories⟩
  else r

/-- The forecast handlers' cold-accessories rule: beanie (and gloves when not
yet present) below the chilly floor (a literal 40 in the fixed-threshold
handler, 40/4 by unit in the parameterized one), skipped when a winter hat was
already added. -/
def applyColdForecast (w : WeatherData) (chillyT : ℚ) (r : OutfitRecommendations) : OutfitRecommendations :=
  if w.temperature < chillyT ∧ r.accessories.contains "Winter hat" = false then
    let acc := r.accessories ++ ["Beanie or winter hat"]
    ⟨r.outerwear, r.shoes, if acc.contains "Gloves" = false then acc ++ ["Gloves"] else acc⟩
  else r

/-- The live-check handlers' cold-accessories rule: winter hat, gloves and
scarf below the very-cold floor, each skipped when already present. -/
def applyColdLive (w : WeatherData) (veryColdT : ℚ) (r : OutfitRecommendations) : OutfitRecommendations :=
  if w.temperature < veryColdT then
    let acc := r.accessories
    let acc := if acc.contains "Winter hat" = false ∧ acc.contains "Beanie or winter hat" = false
      then acc ++ ["Winter hat"] else acc
    let acc := if acc.contains "Gloves" = false then acc ++ ["Gloves"] else acc
    let acc := if acc.contains "Scarf" = false then acc ++ ["Scarf"] else acc
    ⟨r.outerwear, r.shoes, acc⟩
  else r

/-- The forecast handlers' heat-accessories rule (70 in the fixed-threshold
handler, 70/21 by unit in the parameterized one; the live variants lack it). -/
def applyHeatForecast (w : WeatherData) (heatT : ℚ) (r : OutfitRecommendations) : OutfitRecommendations :=
  if w.temperature > heatT ∧ jsIncludes (jsToLower w.condition) "clear" = true then
    ⟨r.outerwear, r.shoes, r.accessories ++ ["Sunglasses", "Sun hat", "Sunscreen"]⟩
  else r

/-- The default footwear rule, applied only when no earlier rule set shoes. -/
def applyDefaultShoes (w : WeatherData) (hotT mildT : ℚ) (r : OutfitRecommendations) : OutfitRecommendations :=
  if r.shoes.length = 0 then
    ⟨r.outerwear,
     if w.temperature > hotT then ["Comfortable walking shoes", "Breathable sneakers"]
     else if w.temperature > mildT then ["Walking shoes", "Athletic sneakers"]
     else ["Closed-toe shoes", "Warm sneakers or boots"],
     r.accessories⟩
  else r

/-- The pushed (pre-truncation) lists of the forecast route handler's
`generateOutfitRecommendations`, rule stages in source order. -/
def rawGenerateOutfitRecommendations (w : WeatherData) : OutfitRecommendations :=
  applyDefaultShoes w 75 50
    (applyHeatForecast w 70
      (applyColdForecast w 40
        (applyWind w 15 50
          (applySnow w
            (applyPrecipForecast w ⟨baseOuterwear w.temperature 75 60 45 32, [], []⟩)))))

/-- `generateOutfitRecommendations` (forecast route handler): the pushed lists
truncated by `slice(0, 3)` / `slice(0, 2)` / `slice(0, 4)`. -/
def generateOutfitRecommendations (w : WeatherData) : OutfitRecommendations :=
  let r := rawGenerateOutfitRecommendations w
  ⟨r.outerwear.take 3, r.shoes.take 2, r.accessories.take 4⟩

/-- The pushed lists of the fourth synthesizer variant: the unit-parameterized
`generateOutfitRecommendations` in the second document of src/app/page.tsx,
whose default-footwear mild threshold is its COOL constant (45°F / 7°C). -/
def rawGenerateOutfitRecommendationsV2 (w : WeatherData) (tempUnit speedUnit : String) :
    OutfitRecommendations :=
  let isCelsius := tempUnit == "celsius"
  let isKmh := speedUnit == "kmh"
  let veryHotT : ℚ := if isCelsius then 24 else 75
  let warmT : ℚ := if isCelsius then 15 else 60
  let coolT : ℚ := if isCelsius then 7 else 45
  let coldT : ℚ := if isCelsius then 0 else 32
  let windyT : ℚ := if isKmh then 24 else 15
  let coolTemp : ℚ := if isCelsius then 10 else 50
  let chillyT : ℚ := if isCelsius then 4 else 40
  let hotT : ℚ := if isCelsius then 21 else 70
  applyDefaultShoes w veryHotT coolT
    (applyHeatForecast w hotT
      (applyColdForecast w chillyT
        (applyWind w windyT coolTemp
          (applySnow w
            (applyPrecipForecast w ⟨baseOuterwear w.temperature veryHotT warmT coolT coldT, [], []⟩)))))

/-- The unit-parameterized forecast `generateOutfitRecommendations` of
src/app/page.tsx (second document): pushed lists truncated by the caps. -/
def generateOutfitRecommendationsV2 (w : WeatherData) (tempUnit speedUnit : String) :
    OutfitRecommendations :=
  let r := rawGenerateOutfitRecommendationsV2 w tempUnit speedUnit
  ⟨r.outerwear.take 3, r.shoes.take 2, r.accessories.take 4⟩

/-- The pushed lists of `generateOutfitForCurrentConditions` in the first
live-check route handler. -/
def rawGenerateOutfitForCurrentConditions (w : WeatherData) : OutfitRecommendations :=
  applyDefaultShoes w 75 50
    (applyColdLive w 40
      (applyWind w 15 50
        (applySnow w
          (applyPrecipLive w ⟨baseOuterwear w.temperature 75 60 45 32, [], []⟩))))

/-- `generateOutfitForCurrentConditions` (first live-check route handler). -/
def generateOutfitForCurrentConditions (w : WeatherData) : OutfitRecommendations :=
  let r := rawGenerateOutfitForCurrentConditions w
  ⟨r.outerwear.take 3, r.shoes.take 2, r.accessories.take 4⟩

/-- The pushed lists of `generateOutfitForCurrentConditions` in the second
live-check route handler, whose thresholds depend on the unit parameters. -/
def rawGenerateOutfitForCurrentConditionsV2 (w : WeatherData) (tempUnit speedUnit : String) :
    OutfitRecommendations :=
  let isCelsius := tempUnit == "celsius"
  let isKmh := speedUnit == "kmh"
  let hotT : ℚ := if isCelsius then 24 else 75
  let warmT : ℚ := if isCelsius then 15 else 60
  let coolT : ℚ := if isCelsius then 7 else 45
  let coldT : ℚ := if isCelsius then 0 else 32
  let veryColdT : ℚ := if isCelsius then 4 else 40
  let windyT : ℚ := if isKmh then 24 else 15
  let comfortT : ℚ := if isCelsius then 10 else 50
  applyDefaultShoes w hotT comfortT
    (applyColdLive w veryColdT
      (applyWind w windyT comfortT
        (applySnow w
          (applyPrecipLive w ⟨baseOuterwear w.temperature hotT warmT coolT coldT, [], []⟩))))

/-- `generateOutfitForCurrentConditions` (second live-check route handler). -/
def generateOutfitForCurrentConditionsV2 (w : WeatherData) (tempUnit speedUnit : String) :
    OutfitRecommendations :=
  let r := rawGenerateOutfitForCurrentConditionsV2 w tempUnit speedUnit
  ⟨r.outerwear.take 3, r.shoes.take 2, r.accessories.take 4⟩

/-- The fields of the granular-factors reading used by the message generator. -/
structure GranularFactors where
  feelsLike : ℚ
  humidity : ℚ
deriving DecidableEq

/-- `COLD_TEMP_F` of the live-check route handlers. -/
def COLD_TEMP_F : ℚ := 40

/-- `HOT_TEMP_F` of the live-check route handlers. -/
def HOT_TEMP_F : ℚ := 75

/-- The sentence fragments pushed by `generateResponseMessage` in the first
live-check route handler; the source joins them with single spaces.  The
feels-like clause is gated on `currentTempF < COLD_TEMP_F` there. -/
def generateResponseMessageParts (summary : String) (g : GranularFactors)
    (current : WeatherData) (tempUnit : String) : List String :=
  let currentTempF :=
    if tempUnit == "celsius" then current.temperature * 9 / 5 + 32 else current.temperature
  let parts := [summary ++ "."]
  let tempDifference := jsAbs (g.feelsLike - current.temperature)
  let parts :=
    if currentTempF < COLD_TEMP_F ∧ tempDifference ≥ 3 then
      let fl := g.feelsLike
      let comparisonWord := if g.feelsLike < current.temperature then "colder" else "warmer"
      let unitLetter := if tempUnit == "celsius" then "C" else "F"
      parts ++ [s!"Feels like {fl}°{unitLetter} ({comparisonWord} than actual temperature)."]
    else parts
  let parts :=
    if currentTempF ≥ HOT_TEMP_F then
      if g.humidity > 70 then
        let h := g.humidity
        let impact := if g.humidity > 80 then "very muggy" else "humid"
        parts ++ [s!"Humidity is {h}% ({impact} - will feel hotter)."]
      else parts
    else parts
  parts

/-- `generateResponseMessage` of the first live-check route handler. -/
def generateResponseMessage (summary : String) (g : GranularFactors)
    (current : WeatherData) (tempUnit : String) : String :=
  String.intercalate " " (generateResponseMessageParts summary g current tempUnit)

/-- The sentence fragments pushed by `generateResponseMessage` in the second
live-check route handler; identical to the first except that its feels-like
clause is gated on `currentTempF < HOT_TEMP_F`. -/
def generateResponseMessagePartsV2 (summary : String) (g : GranularFactors)
    (current : WeatherData) (tempUnit : String) : List String :=
  let currentTempF :=
    if tempUnit == "celsius" then current.temperature * 9 / 5 + 32 else current.temperature
  let parts := [summary ++ "."]
  let tempDifference := jsAbs (g.feelsLike - current.temperature)
  let parts :=
    if currentTempF < HOT_TEMP_F ∧ tempDifference ≥ 3 then
      let fl := g.feelsLike
      let comparisonWord := if g.feelsLike < current.temperature then "colder" else "warmer"
      let unitLetter := if tempUnit == "celsius" then "C" else "F"
      parts ++ [s!"Feels like {fl}°{unitLetter} ({comparisonWord} than actual temperature)."]
    else parts
  let parts :=
    if currentTempF ≥ HOT_TEMP_F then
      if g.humidity > 70 then
        let h := g.humidity
        let impact := if g.humidity > 80 then "very muggy" else "humid"
        parts ++ [s!"Humidity is {h}% ({impact} - will feel hotter)."]
      else parts
    else parts
  parts

/-- `generateResponseMessage` of the second live-check route handler. -/
def generateResponseMessageV2 (summary : String) (g : GranularFactors)
    (current : WeatherData) (tempUnit : String) : String :=
  String.intercalate " " (generateResponseMessagePartsV2 summary g current tempUnit)

structure UpdateDecisionLite where
  shouldUpdate : Bool
  reasons : List String
deriving DecidableEq

structure CheckCurrentWeatherResponse where
  currentConditions : WeatherData
  comparison : CompareForecastResult
  granularFactors : GranularFactors
  updateDecision : UpdateDecisionLite
  updatedOutfit : OutfitRecommendations
  message : String

/-- The success-path JSON payload built by the first live-check route handler,
given the fetched current reading and granular factors. -/
def checkCurrentWeatherResponse (current forecastWeather : WeatherData)
    (g : GranularFactors) (tempUnit : String) : CheckCurrentWeatherResponse :=
  let comparison := compareForecastToActualPure forecastWeather.temperature
    forecastWeather.condition forecastWeather.precipitation forecastWeather.windSpeed current
  ⟨current, comparison, g, ⟨true, []⟩, generateOutfitForCurrentConditions current,
   generateResponseMessage comparison.summary g current tempUnit⟩

/-- The success-path JSON payload built by the second live-check route handler. -/
def checkCurrentWeatherResponseV2 (current forecastWeather : WeatherData)
    (g : GranularFactors) (tempUnit speedUnit : String) : CheckCurrentWeatherResponse :=
  let comparison := compareForecastToActualPure forecastWeather.temperature
    forecastWeather.condition forecastWeather.precipitation forecastWeather.windSpeed current
  ⟨current, comparison, g, ⟨true, []⟩,
   generateOutfitForCurrentConditionsV2 current tempUnit speedUnit,
   generateResponseMessageV2 comparison.summary g current tempUnit⟩

/-- Proof infrastructure: `s` extends every list of `r` on the right, the
invariant maintained by each push-only rule stage. -/
def ExtendsOutfit (r s : OutfitRecommendations) : Prop :=
  ∃ x y z, s.outerwear = r.outerwear ++ x ∧ s.shoes = r.shoes ++ y ∧
    s.accessories = r.accessories ++ z

theorem aux_extends_refl (r : OutfitRecommendations) : ExtendsOutfit r r :=
  ⟨[], [], [], by simp, by simp, by simp⟩

theorem aux_extends_trans {r s t : OutfitRecommendations}
    (h1 : ExtendsOutfit r s) (h2 : ExtendsOutfit s t) : ExtendsOutfit r t := by
  obtain ⟨x1, y1, z1, ho1, hs1, ha1⟩ := h1
  obtain ⟨x2, y2, z2, ho2, hs2, ha2⟩ := h2
  exact ⟨x1 ++ x2, y1 ++ y2, z1 ++ z2, by simp [ho2, ho1], by simp [hs2, hs1],
    by simp [ha2, ha1]⟩

theorem aux_jsAbs_eq_abs (x : ℚ) : jsAbs x = |x| := by
  simp only [jsAbs]
  split_ifs with h
  · rw [abs_of_neg h]
  · rw [abs_of_nonneg (not_lt.mp h)]

theorem aux_baseOuterwear_pair (t hotT warmT coolT coldT : ℚ) :
    ∃ a b, baseOuterwear t hotT warmT coolT coldT = [a, b] := by
  unfold baseOuterwear
  split_ifs <;> exact ⟨_, _, rfl⟩

theorem aux_precipForecast_extends (w : WeatherData) (r : OutfitRecommendations) :
    ExtendsOutfit r (applyPrecipForecast w r) := by
  unfold applyPrecipForecast
  split_ifs
  · exact ⟨_, _, _, rfl, rfl, rfl⟩
  · exact ⟨[], [], _, by simp, by simp, rfl⟩
  · exact aux_extends_refl r

theorem aux_precipLive_extends (w : WeatherData) (r : OutfitRecommendations) :
    ExtendsOutfit r (applyPrecipLive w r) := by
  unfold applyPrecipLive
  split_ifs
  · exact ⟨_, _, _, rfl, rfl, rfl⟩
  · exact ⟨[], [], _, by simp, by simp, rfl⟩
  · exact aux_extends_refl r

theorem aux_snow_extends (w : WeatherData) (r : OutfitRecommendations) :
    ExtendsOutfit r (applySnow w r) := by
  unfold applySnow
  split_ifs
  · exact ⟨_, _, _, rfl, rfl, rfl⟩
  · exact aux_extends_refl r

theorem aux_wind_extends (w : WeatherData) (windyT comfortT : ℚ) (r : OutfitRecommendations) :
    ExtendsOutfit r (applyWind w windyT comfortT r) := by
  unfold applyWind
  split_ifs
  · exact ⟨_, [], _, rfl, by simp, rfl⟩
  · exact ⟨_, [], [], rfl, by simp, by simp⟩
  · exact aux_extends_refl r

theorem aux_coldForecast_extends (w : WeatherData) (chillyT : ℚ) (r : OutfitRecommendations) :
    ExtendsOutfit r (applyColdForecast w chillyT r) := by
  simp only [applyColdForecast]
  split_ifs <;> (try simp only [List.append_assoc]) <;>
    first
      | exact aux_extends_refl r
      | exact ⟨[], [], _, by simp, by simp, rfl⟩

theorem aux_coldLive_extends (w : WeatherData) (veryColdT : ℚ) (r : OutfitRecommendations) :
    ExtendsOutfit r (applyColdLive w veryColdT r) := by
  simp only [applyColdLive]
  split_ifs <;> (try simp only [List.append_assoc]) <;>
    first
      | exact aux_extends_refl r
      | exact ⟨[], [], _, by simp, by simp, rfl⟩

theorem aux_heatForecast_extends (w : WeatherData) (heatT : ℚ) (r : OutfitRecommendations) :
    ExtendsOutfit r (applyHeatForecast w heatT r) := by
  unfold applyHeatForecast
  split_ifs
  · exact ⟨[], [], _, by simp, by simp, rfl⟩
  · exact aux_extends_refl r

theorem aux_defaultShoes_extends (w : WeatherData) (hotT mildT : ℚ)
    (r : OutfitRecommendations) : ExtendsOutfit r (applyDefaultShoes w hotT mildT r) := by
  have hmk : ∀ s : List String, r.shoes.length = 0 →
      ExtendsOutfit r ⟨r.outerwear, s, r.accessories⟩ := by
    intro s h
    exact ⟨[], s, [], by simp, by simp [List.length_eq_zero.mp h], by simp⟩
  simp only [applyDefaultShoes]
  split_ifs with h h1 h2
  · exact hmk _ h
  · exact hmk _ h
  · exact hmk _ h
  · exact aux_extends_refl r

theorem aux_forecastPipe_extends (w : WeatherData)
    (windyT comfortT chillyT heatT hotT mildT : ℚ) (r : OutfitRecommendations) :
    ExtendsOutfit r (applyDefaultShoes w hotT mildT
      (applyHeatForecast w heatT (applyColdForecast w chillyT
        (applyWind w windyT comfortT (applySnow w r))))) :=
  aux_extends_trans (aux_snow_extends w r)
    (aux_extends_trans (aux_wind_extends w windyT comfortT _)
      (aux_extends_trans (aux_coldForecast_extends w chillyT _)
        (aux_extends_trans (aux_heatForecast_extends w heatT _)
          (aux_defaultShoes_extends w hotT mildT _))))

theorem aux_live_tail_extends (w : WeatherData) (veryColdT windyT comfortT hotT mildT : ℚ)
    (r : OutfitRecommendations) :
    ExtendsOutfit r (applyDefaultShoes w hotT mildT
      (applyColdLive w veryColdT (applyWind w windyT comfortT (applySnow w r)))) :=
  aux_extends_trans (aux_snow_extends w r)
    (aux_extends_trans (aux_wind_extends w windyT comfortT _)
      (aux_extends_trans (aux_coldLive_extends w veryColdT _)
        (aux_defaultShoes_extends w hotT mildT _)))

theorem aux_mem_take_head {α : Type} (a : α) (l : List α) (n : ℕ) (h : 0 < n) :
    a ∈ (a :: l).take n := by
  cases n with
  | zero => omega
  | succ m => simp [List.take_succ_cons]

theorem aux_take_three (a b c : α) (l : List α) : (a :: b :: c :: l).take 3 = [a, b, c] := by
  rw [show (3 : ℕ) = 2 + 1 from rfl, List.take_succ_cons,
    show (2 : ℕ) = 1 + 1 from rfl, List.take_succ_cons,
    show (1 : ℕ) = 0 + 1 from rfl, List.take_succ_cons, List.take_zero]

theorem aux_forecastPipe_rainy (w : WeatherData)
    (hotB warmB coolB coldB windyT comfortT chillyT heatT hotT mildT : ℚ)
    (h : w.precipitation > 50 ∨ jsIncludes (jsToLower w.condition) "rain" = true) :
    ∃ a b t u v,
      (applyDefaultShoes w hotT mildT (applyHeatForecast w heatT (applyColdForecast w chillyT
        (applyWind w windyT comfortT (applySnow w (applyPrecipForecast w
          ⟨baseOuterwear w.temperature hotB warmB coolB coldB, [], []⟩)))))).outerwear =
        a :: b :: "Rain jacket" :: t ∧
      (applyDefaultShoes w hotT mildT (applyHeatForecast w heatT (applyColdForecast w chillyT
        (applyWind w windyT comfortT (applySnow w (applyPrecipForecast w
          ⟨baseOuterwear w.temperature hotB warmB coolB coldB, [], []⟩)))))).shoes =
        "Waterproof boots" :: u ∧
      (applyDefaultShoes w hotT mildT (applyHeatForecast w heatT (applyColdForecast w chillyT
        (applyWind w windyT comfortT (applySnow w (applyPrecipForecast w
          ⟨baseOuterwear w.temperature hotB warmB coolB coldB, [], []⟩)))))).accessories =
        "Umbrella" :: v := by
  obtain ⟨a, b, hb⟩ := aux_baseOuterwear_pair w.temperature hotB warmB coolB coldB
  have hp : applyPrecipForecast w ⟨baseOuterwear w.temperature hotB warmB coolB coldB, [], []⟩ =
      ⟨[a, b, "Rain jacket"], ["Waterproof boots"], ["Umbrella"]⟩ := by
    simp only [applyPrecipForecast]
    rw [if_pos h]
    simp [hb]
  rw [hp]
  obtain ⟨x, y, z, ho, hs, ha⟩ :=
    aux_forecastPipe_extends w windyT comfortT chillyT heatT hotT mildT
      ⟨[a, b, "Rain jacket"], ["Waterproof boots"], ["Umbrella"]⟩
  refine ⟨a, b, x, y, z, ?_, ?_, ?_⟩
  · rw [ho]; simp
  · rw [hs]; simp
  · rw [ha]; simp

theorem aux_rawV0_rainy (w : WeatherData)
    (h : w.precipitation > 50 ∨ jsIncludes (jsToLower w.condition) "rain" = true) :
    ∃ a b t u v, (rawGenerateOutfitRecommendations w).outerwear = a :: b :: "Rain jacket" :: t ∧
      (rawGenerateOutfitRecommendations w).shoes = "Waterproof boots" :: u ∧
      (rawGenerateOutfitRecommendations w).accessories = "Umbrella" :: v := by
  simp only [rawGenerateOutfitRecommendations]
  exact aux_forecastPipe_rainy w _ _ _ _ _ _ _ _ _ _ h

theorem aux_rawV0V2_rainy (w : WeatherData) (tempUnit speedUnit : String)
    (h : w.precipitation > 50 ∨ jsIncludes (jsToLower w.condition) "rain" = true) :
    ∃ a b t u v, (rawGenerateOutfitRecommendationsV2 w tempUnit speedUnit).outerwear =
        a :: b :: "Rain jacket" :: t ∧
      (rawGenerateOutfitRecommendationsV2 w tempUnit speedUnit).shoes =
        "Waterproof boots" :: u ∧
      (rawGenerateOutfitRecommendationsV2 w tempUnit speedUnit).accessories =
        "Umbrella" :: v := by
  simp only [rawGenerateOutfitRecommendationsV2]
  exact aux_forecastPipe_rainy w _ _ _ _ _ _ _ _ _ _ h

theorem aux_forecastPipe_lightrain (w : WeatherData)
    (hotB warmB coolB coldB windyT comfortT chillyT heatT hotT mildT : ℚ)
    (h1 : ¬(w.precipitation > 50 ∨ jsIncludes (jsToLower w.condition) "rain" = true))
    (h2 : w.precipitation > 20) :
    ∃ v, (applyDefaultShoes w hotT mildT (applyHeatForecast w heatT (applyColdForecast w chillyT
        (applyWind w windyT comfortT (applySnow w (applyPrecipForecast w
          ⟨baseOuterwear w.temperature hotB warmB coolB coldB, [], []⟩)))))).accessories =
      "Light rain jacket (just in case)" :: v := by
  have hp : applyPrecipForecast w ⟨baseOuterwear w.temperature hotB warmB coolB coldB, [], []⟩ =
      ⟨baseOuterwear w.temperature hotB warmB coolB coldB, [],
        ["Light rain jacket (just in case)"]⟩ := by
    simp only [applyPrecipForecast]
    rw [if_neg h1, if_pos h2]
    simp
  rw [hp]
  obtain ⟨x, y, z, ho, hs, ha⟩ :=
    aux_forecastPipe_extends w windyT comfortT chillyT heatT hotT mildT
      ⟨baseOuterwear w.temperature hotB warmB coolB coldB, [],
        ["Light rain jacket (just in case)"]⟩
  refine ⟨z, ?_⟩
  rw [ha]
  simp

theorem aux_rawV0_lightrain (w : WeatherData)
    (h1 : ¬(w.precipitation > 50 ∨ jsIncludes (jsToLower w.condition) "rain" = true))
    (h2 : w.precipitation > 20) :
    ∃ v, (rawGenerateOutfitRecommendations w).accessories =
      "Light rain jacket (just in case)" :: v := by
  simp only [rawGenerateOutfitRecommendations]
  exact aux_forecastPipe_lightrain w _ _ _ _ _ _ _ _ _ _ h1 h2

theorem aux_rawV0V2_lightrain (w : WeatherData) (tempUnit speedUnit : String)
    (h1 : ¬(w.precipitation > 50 ∨ jsIncludes (jsToLower w.condition) "rain" = true))
    (h2 : w.precipitation > 20) :
    ∃ v, (rawGenerateOutfitRecommendationsV2 w tempUnit speedUnit).accessories =
      "Light rain jacket (just in case)" :: v := by
  simp only [rawGenerateOutfitRecommendationsV2]
  exact aux_forecastPipe_lightrain w _ _ _ _ _ _ _ _ _ _ h1 h2

theorem aux_livePipe_umbrella (w : WeatherData)
    (hotT warmT coolT coldT veryColdT windyT comfortT hotT2 mildT : ℚ)
    (h : w.precipitation > 0 ∨ jsIncludes (jsToLower w.condition) "rain" = true) :
    ∃ v, (applyDefaultShoes w hotT2 mildT (applyColdLive w veryColdT
        (applyWind w windyT comfortT (applySnow w (applyPrecipLive w
          ⟨baseOuterwear w.temperature hotT warmT coolT coldT, [], []⟩))))).accessories =
      "Umbrella" :: v := by
  have hacc : (applyPrecipLive w
      ⟨baseOuterwear w.temperature hotT warmT coolT coldT, [], []⟩).accessories =
      ["Umbrella"] := by
    simp only [applyPrecipLive]
    rw [if_pos h]
    simp
  obtain ⟨x, y, z, ho, hs, ha⟩ :=
    aux_live_tail_extends w veryColdT windyT comfortT hotT2 mildT
      (applyPrecipLive w ⟨baseOuterwear w.temperature hotT warmT coolT coldT, [], []⟩)
  refine ⟨z, ?_⟩
  rw [ha, hacc]
  simp

theorem aux_livePipe_rainjacket (w : WeatherData)
    (hotT warmT coolT coldT veryColdT windyT comfortT hotT2 mildT : ℚ)
    (h5 : w.precipitation > 5) :
    ∃ a b t u, (applyDefaultShoes w hotT2 mildT (applyColdLive w veryColdT
        (applyWind w windyT comfortT (applySnow w (applyPrecipLive w
          ⟨baseOuterwear w.temperature hotT warmT coolT coldT, [], []⟩))))).outerwear =
        a :: b :: "Rain jacket" :: t ∧
      (applyDefaultShoes w hotT2 mildT (applyColdLive w veryColdT
        (applyWind w windyT comfortT (applySnow w (applyPrecipLive w
          ⟨baseOuterwear w.temperature hotT warmT coolT coldT, [], []⟩))))).shoes =
        "Waterproof boots" :: u := by
  obtain ⟨a, b, hb⟩ := aux_baseOuterwear_pair w.temperature hotT warmT coolT coldT
  have h0 : w.precipitation > 0 ∨ jsIncludes (jsToLower w.condition) "rain" = true :=
    Or.inl (lt_trans (by norm_num) h5)
  have hp : applyPrecipLive w ⟨baseOuterwear w.temperature hotT warmT coolT coldT, [], []⟩ =
      ⟨[a, b, "Rain jacket"], ["Waterproof boots"], ["Umbrella"]⟩ := by
    simp only [applyPrecipLive]
    rw [if_pos h0]
    simp [hb, h5]
  rw [hp]
  obtain ⟨x, y, z, ho, hs, ha⟩ :=
    aux_live_tail_extends w veryColdT windyT comfortT hotT2 mildT
      ⟨[a, b, "Rain jacket"], ["Waterproof boots"], ["Umbrella"]⟩
  refine ⟨a, b, x, y, ?_, ?_⟩
  · rw [ho]; simp
  · rw [hs]; simp

theorem aux_precipForecast_shoes_keep (w : WeatherData) (r : OutfitRecommendations)
    (h : ¬(w.precipitation > 50 ∨ jsIncludes (jsToLower w.condition) "rain" = true)) :
    (applyPrecipForecast w r).shoes = r.shoes := by
  simp only [applyPrecipForecast]
  rw [if_neg h]
  split_ifs <;> rfl

theorem aux_snow_shoes_sub (w : WeatherData) (r : OutfitRecommendations) (x : String)
    (hx : x ∈ (applySnow w r).shoes) : x ∈ r.shoes ∨ x = "Insulated winter boots" := by
  simp only [applySnow] at hx
  split_ifs at hx <;> simp_all <;> tauto

theorem aux_wind_shoes_keep (w : WeatherData) (windyT comfortT : ℚ)
    (r : OutfitRecommendations) : (applyWind w windyT comfortT r).shoes = r.shoes := by
  simp only [applyWind]
  split_ifs <;> rfl

theorem aux_coldForecast_shoes_keep (w : WeatherData) (chillyT : ℚ)
    (r : OutfitRecommendations) : (applyColdForecast w chillyT r).shoes = r.shoes := by
  simp only [applyColdForecast]
  split_ifs <;> rfl

theorem aux_coldLive_shoes_keep (w : WeatherData) (veryColdT : ℚ)
    (r : OutfitRecommendations) : (applyColdLive w veryColdT r).shoes = r.shoes := by
  simp only [applyColdLive]
  split_ifs <;> rfl

theorem aux_heat_shoes_keep (w : WeatherData) (heatT : ℚ) (r : OutfitRecommendations) :
    (applyHeatForecast w heatT r).shoes = r.shoes := by
  simp only [applyHeatForecast]
  split_ifs <;> rfl

theorem aux_defaultShoes_shoes_sub (w : WeatherData) (hotT mildT : ℚ)
    (r : OutfitRecommendations) (x : String) (hx : x ∈ (applyDefaultShoes w hotT mildT r).shoes) :
    x ∈ r.shoes ∨ x ∈ ["Comfortable walking shoes", "Breathable sneakers", "Walking shoes",
      "Athletic sneakers", "Closed-toe shoes", "Warm sneakers or boots"] := by
  simp only [applyDefaultShoes] at hx
  split_ifs at hx <;> simp_all <;> tauto

theorem aux_precipLive_acc_sub (w : WeatherData) (r : OutfitRecommendations) (x : String)
    (hx : x ∈ (applyPrecipLive w r).accessories) : x ∈ r.accessories ∨ x = "Umbrella" := by
  simp only [applyPrecipLive] at hx
  split_ifs at hx <;> simp_all <;> tauto

theorem aux_snow_acc_sub (w : WeatherData) (r : OutfitRecommendations) (x : String)
    (hx : x ∈ (applySnow w r).accessories) :
    x ∈ r.accessories ∨ x ∈ ["Winter hat", "Gloves", "Scarf"] := by
  simp only [applySnow] at hx
  split_ifs at hx <;> simp_all <;> tauto

theorem aux_wind_acc_sub (w : WeatherData) (windyT comfortT : ℚ) (r : OutfitRecommendations)
    (x : String) (hx : x ∈ (applyWind w windyT comfortT r).accessories) :
    x ∈ r.accessories ∨ x = "Ear warmers or hat" := by
  simp only [applyWind] at hx
  split_ifs at hx <;> simp_all <;> tauto

theorem aux_coldLive_acc_sub (w : WeatherData) (veryColdT : ℚ) (r : OutfitRecommendations)
    (x : String) (hx : x ∈ (applyColdLive w veryColdT r).accessories) :
    x ∈ r.accessories ∨ x ∈ ["Winter hat", "Gloves", "Scarf"] := by
  simp only [applyColdLive] at hx
  split_ifs at hx <;> simp_all <;> tauto

theorem aux_defaultShoes_acc_keep (w : WeatherData) (hotT mildT : ℚ)
    (r : OutfitRecommendations) : (applyDefaultShoes w hotT mildT r).accessories = r.accessories := by
  simp only [applyDefaultShoes]
  split_ifs <;> rfl

theorem aux_precipForecast_outerwear_keep (w : WeatherData) (r : OutfitRecommendations)
    (h : ¬(w.precipitation > 50 ∨ jsIncludes (jsToLower w.condition) "rain" = true)) :
    (applyPrecipForecast w r).outerwear = r.outerwear := by
  simp only [applyPrecipForecast]
  rw [if_neg h]
  split_ifs <;> rfl

theorem aux_precipForecast_acc_sub (w : WeatherData) (r : OutfitRecommendations) (x : String)
    (h : ¬(w.precipitation > 50 ∨ jsIncludes (jsToLower w.condition) "rain" = true))
    (hx : x ∈ (applyPrecipForecast w r).accessories) :
    x ∈ r.accessories ∨ x = "Light rain jacket (just in case)" := by
  simp only [applyPrecipForecast] at hx
  rw [if_neg h] at hx
  split_ifs at hx <;> simp_all <;> tauto

theorem aux_snow_outerwear_sub (w : WeatherData) (r : OutfitRecommendations) (x : String)
    (hx : x ∈ (applySnow w r).outerwear) : x ∈ r.outerwear ∨ x = "Waterproof winter coat" := by
  simp only [applySnow] at hx
  split_ifs at hx <;> simp_all <;> tauto

theorem aux_wind_outerwear_sub (w : WeatherData) (windyT comfortT : ℚ)
    (r : OutfitRecommendations) (x : String)
    (hx : x ∈ (applyWind w windyT comfortT r).outerwear) :
    x ∈ r.outerwear ∨ x = "Windbreaker" := by
  simp only [applyWind] at hx
  split_ifs at hx <;> simp_all <;> tauto

theorem aux_coldForecast_outerwear_keep (w : WeatherData) (chillyT : ℚ)
    (r : OutfitRecommendations) : (applyColdForecast w chillyT r).outerwear = r.outerwear := by
  simp only [applyColdForecast]
  split_ifs <;> rfl

theorem aux_coldLive_outerwear_keep (w : WeatherData) (veryColdT : ℚ)
    (r : OutfitRecommendations) : (applyColdLive w veryColdT r).outerwear = r.outerwear := by
  simp only [applyColdLive]
  split_ifs <;> rfl

theorem aux_heat_outerwear_keep (w : WeatherData) (heatT : ℚ) (r : OutfitRecommendations) :
    (applyHeatForecast w heatT r).outerwear = r.outerwear := by
  simp only [applyHeatForecast]
  split_ifs <;> rfl

theorem aux_defaultShoes_outerwear_keep (w : WeatherData) (hotT mildT : ℚ)
    (r : OutfitRecommendations) : (applyDefaultShoes w hotT mildT r).outerwear = r.outerwear := by
  simp only [applyDefaultShoes]
  split_ifs <;> rfl

theorem aux_coldForecast_acc_sub (w : WeatherData) (chillyT : ℚ) (r : OutfitRecommendations)
    (x : String) (hx : x ∈ (applyColdForecast w chillyT r).accessories) :
    x ∈ r.accessories ∨ x ∈ ["Beanie or winter hat", "Gloves"] := by
  simp only [applyColdForecast] at hx
  split_ifs at hx <;> simp_all <;> tauto

theorem aux_heat_acc_sub (w : WeatherData) (heatT : ℚ) (r : OutfitRecommendations)
    (x : String) (hx : x ∈ (applyHeatForecast w heatT r).accessories) :
    x ∈ r.accessories ∨ x ∈ ["Sunglasses", "Sun hat", "Sunscreen"] := by
  simp only [applyHeatForecast] at hx
  split_ifs at hx <;> simp_all <;> tauto

theorem aux_base_no_rj (t hotT warmT coolT coldT : ℚ) :
    "Rain jacket" ∉ baseOuterwear t hotT warmT coolT coldT := by
  simp only [baseOuterwear]
  split_ifs <;> decide

theorem aux_forecastPipe_no_rainstuff (w : WeatherData)
    (hotB warmB coolB coldB windyT comfortT chillyT heatT hotT mildT : ℚ)
    (h : ¬(w.precipitation > 50 ∨ jsIncludes (jsToLower w.condition) "rain" = true)) :
    "Rain jacket" ∉
      (applyDefaultShoes w hotT mildT (applyHeatForecast w heatT (applyColdForecast w chillyT
        (applyWind w windyT comfortT (applySnow w (applyPrecipForecast w
          ⟨baseOuterwear w.temperature hotB warmB coolB coldB, [], []⟩)))))).outerwear ∧
    "Umbrella" ∉
      (applyDefaultShoes w hotT mildT (applyHeatForecast w heatT (applyColdForecast w chillyT
        (applyWind w windyT comfortT (applySnow w (applyPrecipForecast w
          ⟨baseOuterwear w.temperature hotB warmB coolB coldB, [], []⟩)))))).accessories ∧
    "Waterproof boots" ∉
      (applyDefaultShoes w hotT mildT (applyHeatForecast w heatT (applyColdForecast w chillyT
        (applyWind w windyT comfortT (applySnow w (applyPrecipForecast w
          ⟨baseOuterwear w.temperature hotB warmB coolB coldB, [], []⟩)))))).shoes := by
  refine ⟨?_, ?_, ?_⟩
  · intro hx
    rw [aux_defaultShoes_outerwear_keep, aux_heat_outerwear_keep,
      aux_coldForecast_outerwear_keep] at hx
    rcases aux_wind_outerwear_sub _ _ _ _ _ hx with hx | hx
    · rcases aux_snow_outerwear_sub _ _ _ hx with hx | hx
      · rw [aux_precipForecast_outerwear_keep _ _ h] at hx
        exact aux_base_no_rj _ _ _ _ _ hx
      · simp at hx
    · simp at hx
  · intro hx
    rw [aux_defaultShoes_acc_keep] at hx
    rcases aux_heat_acc_sub _ _ _ _ hx with hx | hx
    · rcases aux_coldForecast_acc_sub _ _ _ _ hx with hx | hx
      · rcases aux_wind_acc_sub _ _ _ _ _ hx with hx | hx
        · rcases aux_snow_acc_sub _ _ _ hx with hx | hx
          · rcases aux_precipForecast_acc_sub _ _ _ h hx with hx | hx
            · simp at hx
            · simp at hx
          · simp at hx
        · simp at hx
      · simp at hx
    · simp at hx
  · intro hx
    rcases aux_defaultShoes_shoes_sub _ _ _ _ _ hx with hx | hx
    · rw [aux_heat_shoes_keep, aux_coldForecast_shoes_keep, aux_wind_shoes_keep] at hx
      rcases aux_snow_shoes_sub _ _ _ hx with hx | hx
      · rw [aux_precipForecast_shoes_keep w _ h] at hx
        simp at hx
      · simp at hx
    · simp at hx

theorem aux_rawV0_no_rainstuff (w : WeatherData)
    (h : ¬(w.precipitation > 50 ∨ jsIncludes (jsToLower w.condition) "rain" = true)) :
    "Rain jacket" ∉ (rawGenerateOutfitRecommendations w).outerwear ∧
    "Umbrella" ∉ (rawGenerateOutfitRecommendations w).accessories ∧
    "Waterproof boots" ∉ (rawGenerateOutfitRecommendations w).shoes := by
  simp only [rawGenerateOutfitRecommendations]
  exact aux_forecastPipe_no_rainstuff w _ _ _ _ _ _ _ _ _ _ h

theorem aux_rawV0V2_no_rainstuff (w : WeatherData) (tempUnit speedUnit : String)
    (h : ¬(w.precipitation > 50 ∨ jsIncludes (jsToLower w.condition) "rain" = true)) :
    "Rain jacket" ∉ (rawGenerateOutfitRecommendationsV2 w tempUnit speedUnit).outerwear ∧
    "Umbrella" ∉ (rawGenerateOutfitRecommendationsV2 w tempUnit speedUnit).accessories ∧
    "Waterproof boots" ∉ (rawGenerateOutfitRecommendationsV2 w tempUnit speedUnit).shoes := by
  simp only [rawGenerateOutfitRecommendationsV2]
  exact aux_forecastPipe_no_rainstuff w _ _ _ _ _ _ _ _ _ _ h

theorem aux_precipLive_keep_of_le (w : WeatherData) (r : OutfitRecommendations)
    (h : ¬w.precipitation > 5) :
    (applyPrecipLive w r).outerwear = r.outerwear ∧ (applyPrecipLive w r).shoes = r.shoes := by
  simp only [applyPrecipLive]
  split_ifs with h1
  · simp [h]
  · exact ⟨rfl, rfl⟩

theorem aux_livePipe_no_rj_boots (w : WeatherData)
    (hotT warmT coolT coldT veryColdT windyT comfortT hotT2 mildT : ℚ)
    (h : ¬w.precipitation > 5) :
    "Rain jacket" ∉
      (applyDefaultShoes w hotT2 mildT (applyColdLive w veryColdT
        (applyWind w windyT comfortT (applySnow w (applyPrecipLive w
          ⟨baseOuterwear w.temperature hotT warmT coolT coldT, [], []⟩))))).outerwear ∧
    "Waterproof boots" ∉
      (applyDefaultShoes w hotT2 mildT (applyColdLive w veryColdT
        (applyWind w windyT comfortT (applySnow w (applyPrecipLive w
          ⟨baseOuterwear w.temperature hotT warmT coolT coldT, [], []⟩))))).shoes := by
  refine ⟨?_, ?_⟩
  · intro hx
    rw [aux_defaultShoes_outerwear_keep, aux_coldLive_outerwear_keep] at hx
    rcases aux_wind_outerwear_sub _ _ _ _ _ hx with hx | hx
    · rcases aux_snow_outerwear_sub _ _ _ hx with hx | hx
      · rw [(aux_precipLive_keep_of_le _ _ h).1] at hx
        exact aux_base_no_rj _ _ _ _ _ hx
      · simp at hx
    · simp at hx
  · intro hx
    rcases aux_defaultShoes_shoes_sub _ _ _ _ _ hx with hx | hx
    · rw [aux_coldLive_shoes_keep, aux_wind_shoes_keep] at hx
      rcases aux_snow_shoes_sub _ _ _ hx with hx | hx
      · rw [(aux_precipLive_keep_of_le _ _ h).2] at hx
        simp at hx
      · simp at hx
    · simp at hx

theorem aux_rawV1_no_rj_boots (w : WeatherData) (h : ¬w.precipitation > 5) :
    "Rain jacket" ∉ (rawGenerateOutfitForCurrentConditions w).outerwear ∧
    "Waterproof boots" ∉ (rawGenerateOutfitForCurrentConditions w).shoes := by
  simp only [rawGenerateOutfitForCurrentConditions]
  exact aux_livePipe_no_rj_boots w _ _ _ _ _ _ _ _ _ h

theorem aux_rawV2_no_rj_boots (w : WeatherData) (tempUnit speedUnit : String)
    (h : ¬w.precipitation > 5) :
    "Rain jacket" ∉ (rawGenerateOutfitForCurrentConditionsV2 w tempUnit speedUnit).outerwear ∧
    "Waterproof boots" ∉ (rawGenerateOutfitForCurrentConditionsV2 w tempUnit speedUnit).shoes := by
  simp only [rawGenerateOutfitForCurrentConditionsV2]
  exact aux_livePipe_no_rj_boots w _ _ _ _ _ _ _ _ _ h

theorem aux_livePipe_no_lightrain (w : WeatherData)
    (hotT warmT coolT coldT veryColdT windyT comfortT hotT2 mildT : ℚ) :
    "Light rain jacket (just in case)" ∉
      (applyDefaultShoes w hotT2 mildT (applyColdLive w veryColdT
        (applyWind w windyT comfortT (applySnow w (applyPrecipLive w
          ⟨baseOuterwear w.temperature hotT warmT coolT coldT, [], []⟩))))).accessories := by
  intro hx
  rw [aux_defaultShoes_acc_keep] at hx
  rcases aux_coldLive_acc_sub _ _ _ _ hx with hx | hx
  · rcases aux_wind_acc_sub _ _ _ _ _ hx with hx | hx
    · rcases aux_snow_acc_sub _ _ _ hx with hx | hx
      · rcases aux_precipLive_acc_sub _ _ _ hx with hx | hx
        · simp at hx
        · simp at hx
      · simp at hx
    · simp at hx
  · simp at hx

theorem aux_rawV1_umbrella (w : WeatherData)
    (h : w.precipitation > 0 ∨ jsIncludes (jsToLower w.condition) "rain" = true) :
    ∃ v, (rawGenerateOutfitForCurrentConditions w).accessories = "Umbrella" :: v := by
  simp only [rawGenerateOutfitForCurrentConditions]
  exact aux_livePipe_umbrella w _ _ _ _ _ _ _ _ _ h

theorem aux_rawV2_umbrella (w : WeatherData) (tempUnit speedUnit : String)
    (h : w.precipitation > 0 ∨ jsIncludes (jsToLower w.condition) "rain" = true) :
    ∃ v, (rawGenerateOutfitForCurrentConditionsV2 w tempUnit speedUnit).accessories =
      "Umbrella" :: v := by
  simp only [rawGenerateOutfitForCurrentConditionsV2]
  exact aux_livePipe_umbrella w _ _ _ _ _ _ _ _ _ h

theorem aux_rawV1_rainjacket (w : WeatherData) (h5 : w.precipitation > 5) :
    ∃ a b t u, (rawGenerateOutfitForCurrentConditions w).outerwear =
        a :: b :: "Rain jacket" :: t ∧
      (rawGenerateOutfitForCurrentConditions w).shoes = "Waterproof boots" :: u := by
  simp only [rawGenerateOutfitForCurrentConditions]
  exact aux_livePipe_rainjacket w _ _ _ _ _ _ _ _ _ h5

theorem aux_rawV2_rainjacket (w : WeatherData) (tempUnit speedUnit : String)
    (h5 : w.precipitation > 5) :
    ∃ a b t u, (rawGenerateOutfitForCurrentConditionsV2 w tempUnit speedUnit).outerwear =
        a :: b :: "Rain jacket" :: t ∧
      (rawGenerateOutfitForCurrentConditionsV2 w tempUnit speedUnit).shoes =
        "Waterproof boots" :: u := by
  simp only [rawGenerateOutfitForCurrentConditionsV2]
  exact aux_livePipe_rainjacket w _ _ _ _ _ _ _ _ _ h5

theorem aux_rawV1_no_lightrain (w : WeatherData) :
    "Light rain jacket (just in case)" ∉
      (rawGenerateOutfitForCurrentConditions w).accessories := by
  simp only [rawGenerateOutfitForCurrentConditions]
  exact aux_livePipe_no_lightrain w _ _ _ _ _ _ _ _ _

theorem aux_rawV2_no_lightrain (w : WeatherData) (tempUnit speedUnit : String) :
    "Light rain jacket (just in case)" ∉
      (rawGenerateOutfitForCurrentConditionsV2 w tempUnit speedUnit).accessories := by
  simp only [rawGenerateOutfitForCurrentConditionsV2]
  exact aux_livePipe_no_lightrain w _ _ _ _ _ _ _ _ _

/-- C1 counterexample: the first live-check variant at 60°, "Clear sky",
precipitation 30, wind 5.  Precipitation is above 20 but not above 50 and the
condition has no "rain", so the claim requires only a light-rain-jacket
accessory and no footwear change; the code instead emits waterproof boots, a
rain jacket and an umbrella and never the light-rain accessory. -/
theorem precipitation_rule_counterexample :
    ((30 : ℚ) > 20 ∧ ¬((30 : ℚ) > 50) ∧
      jsIncludes (jsToLower "Clear sky") "rain" = false) ∧
    (generateOutfitForCurrentConditions ⟨60, "Clear sky", 30, 5⟩).shoes = ["Waterproof boots"] ∧
    "Rain jacket" ∈ (generateOutfitForCurrentConditions ⟨60, "Clear sky", 30, 5⟩).outerwear ∧
    "Light rain jacket (just in case)" ∉
      (generateOutfitForCurrentConditions ⟨60, "Clear sky", 30, 5⟩).accessories := by
  decide

/-- C1 (amended): both forecast-path synthesizers (the fixed-threshold route
handler and the unit-parameterized one) obey the claimed rule — rain jacket,
waterproof boots and umbrella when precipitation > 50 or the label contains
"rain", otherwise, when precipitation > 20, only the conditional
light-rain-jacket accessory, with no rain jacket, umbrella, or footwear
change — while the live-check variants instead add an umbrella whenever
precipitation > 0 or the label contains "rain", add the rain jacket and
waterproof boots exactly when precipitation > 5 (absent otherwise), and never
emit the light-rain-jacket accessory. -/
theorem precipitation_rule_amended (w : WeatherData) (tempUnit speedUnit : String) :
    (w.precipitation > 50 ∨ jsIncludes (jsToLower w.condition) "rain" = true →
      "Rain jacket" ∈ (generateOutfitRecommendations w).outerwear ∧
      "Waterproof boots" ∈ (generateOutfitRecommendations w).shoes ∧
      "Umbrella" ∈ (generateOutfitRecommendations w).accessories ∧
      "Rain jacket" ∈ (generateOutfitRecommendationsV2 w tempUnit speedUnit).outerwear ∧
      "Waterproof boots" ∈ (generateOutfitRecommendationsV2 w tempUnit speedUnit).shoes ∧
      "Umbrella" ∈ (generateOutfitRecommendationsV2 w tempUnit speedUnit).accessories) ∧
    (¬(w.precipitation > 50 ∨ jsIncludes (jsToLower w.condition) "rain" = true) →
      w.precipitation > 20 →
      "Light rain jacket (just in case)" ∈ (generateOutfitRecommendations w).accessories ∧
      "Waterproof boots" ∉ (generateOutfitRecommendations w).shoes ∧
      "Rain jacket" ∉ (generateOutfitRecommendations w).outerwear ∧
      "Umbrella" ∉ (generateOutfitRecommendations w).accessories ∧
      "Light rain jacket (just in case)" ∈
        (generateOutfitRecommendationsV2 w tempUnit speedUnit).accessories ∧
      "Waterproof boots" ∉ (generateOutfitRecommendationsV2 w tempUnit speedUnit).shoes ∧
      "Rain jacket" ∉ (generateOutfitRecommendationsV2 w tempUnit speedUnit).outerwear ∧
      "Umbrella" ∉ (generateOutfitRecommendationsV2 w tempUnit speedUnit).accessories) ∧
    (w.precipitation > 0 ∨ jsIncludes (jsToLower w.condition) "rain" = true →
      "Umbrella" ∈ (generateOutfitForCurrentConditions w).accessories ∧
      "Umbrella" ∈ (generateOutfitForCurrentConditionsV2 w tempUnit speedUnit).accessories) ∧
    (w.precipitation > 5 →
      "Rain jacket" ∈ (generateOutfitForCurrentConditions w).outerwear ∧
      "Waterproof boots" ∈ (generateOutfitForCurrentConditions w).shoes ∧
      "Rain jacket" ∈ (generateOutfitForCurrentConditionsV2 w tempUnit speedUnit).outerwear ∧
      "Waterproof boots" ∈ (generateOutfitForCurrentConditionsV2 w tempUnit speedUnit).shoes) ∧
    (¬w.precipitation > 5 →
      "Rain jacket" ∉ (generateOutfitForCurrentConditions w).outerwear ∧
      "Waterproof boots" ∉ (generateOutfitForCurrentConditions w).shoes ∧
      "Rain jacket" ∉ (generateOutfitForCurrentConditionsV2 w tempUnit speedUnit).outerwear ∧
      "Waterproof boots" ∉ (generateOutfitForCurrentConditionsV2 w tempUnit speedUnit).shoes) ∧
    ("Light rain jacket (just in case)" ∉
        (generateOutfitForCurrentConditions w).accessories ∧
      "Light rain jacket (just in case)" ∉
        (generateOutfitForCurrentConditionsV2 w tempUnit speedUnit).accessories) := by
  refine ⟨?_, ?_, ?_, ?_, ?_, ?_⟩
  · intro h
    obtain ⟨a, b, t, u, v, ho, hs, ha⟩ := aux_rawV0_rainy w h
    obtain ⟨a2, b2, t2, u2, v2, ho2, hs2, ha2⟩ := aux_rawV0V2_rainy w tempUnit speedUnit h
    refine ⟨?_, ?_, ?_, ?_, ?_, ?_⟩
    · simp only [generateOutfitRecommendations, ho, aux_take_three]
      simp
    · simp only [generateOutfitRecommendations, hs]
      exact aux_mem_take_head _ _ _ (by norm_num)
    · simp only [generateOutfitRecommendations, ha]
      exact aux_mem_take_head _ _ _ (by norm_num)
    · simp only [generateOutfitRecommendationsV2, ho2, aux_take_three]
      simp
    · simp only [generateOutfitRecommendationsV2, hs2]
      exact aux_mem_take_head _ _ _ (by norm_num)
    · simp only [generateOutfitRecommendationsV2, ha2]
      exact aux_mem_take_head _ _ _ (by norm_num)
  · intro h1 h2
    obtain ⟨v, ha⟩ := aux_rawV0_lightrain w h1 h2
    obtain ⟨v2, ha2⟩ := aux_rawV0V2_lightrain w tempUnit speedUnit h1 h2
    refine ⟨?_, ?_, ?_, ?_, ?_, ?_, ?_, ?_⟩
    · simp only [generateOutfitRecommendations, ha]
      exact aux_mem_take_head _ _ _ (by norm_num)
    · intro hx
      simp only [generateOutfitRecommendations] at hx
      exact (aux_rawV0_no_rainstuff w h1).2.2 (List.mem_of_mem_take hx)
    · intro hx
      simp only [generateOutfitRecommendations] at hx
      exact (aux_rawV0_no_rainstuff w h1).1 (List.mem_of_mem_take hx)
    · intro hx
      simp only [generateOutfitRecommendations] at hx
      exact (aux_rawV0_no_rainstuff w h1).2.1 (List.mem_of_mem_take hx)
    · simp only [generateOutfitRecommendationsV2, ha2]
      exact aux_mem_take_head _ _ _ (by norm_num)
    · intro hx
      simp only [generateOutfitRecommendationsV2] at hx
      exact (aux_rawV0V2_no_rainstuff w tempUnit speedUnit h1).2.2 (List.mem_of_mem_take hx)
    · intro hx
      simp only [generateOutfitRecommendationsV2] at hx
      exact (aux_rawV0V2_no_rainstuff w tempUnit speedUnit h1).1 (List.mem_of_mem_take hx)
    · intro hx
      simp only [generateOutfitRecommendationsV2] at hx
      exact (aux_rawV0V2_no_rainstuff w tempUnit speedUnit h1).2.1 (List.mem_of_mem_take hx)
  · intro h
    obtain ⟨v1, hv1⟩ := aux_rawV1_umbrella w h
    obtain ⟨v2, hv2⟩ := aux_rawV2_umbrella w tempUnit speedUnit h
    constructor
    · simp only [generateOutfitForCurrentConditions, hv1]
      exact aux_mem_take_head _ _ _ (by norm_num)
    · simp only [generateOutfitForCurrentConditionsV2, hv2]
      exact aux_mem_take_head _ _ _ (by norm_num)
  · intro h5
    obtain ⟨a, b, t, u, ho1, hs1⟩ := aux_rawV1_rainjacket w h5
    obtain ⟨a2, b2, t2, u2, ho2, hs2⟩ := aux_rawV2_rainjacket w tempUnit speedUnit h5
    refine ⟨?_, ?_, ?_, ?_⟩
    · simp only [generateOutfitForCurrentConditions, ho1, aux_take_three]
      simp
    · simp only [generateOutfitForCurrentConditions, hs1]
      exact aux_mem_take_head _ _ _ (by norm_num)
    · simp only [generateOutfitForCurrentConditionsV2, ho2, aux_take_three]
      simp
    · simp only [generateOutfitForCurrentConditionsV2, hs2]
      exact aux_mem_take_head _ _ _ (by norm_num)
  · intro h5
    refine ⟨?_, ?_, ?_, ?_⟩
    · intro hx
      simp only [generateOutfitForCurrentConditions] at hx
      exact (aux_rawV1_no_rj_boots w h5).1 (List.mem_of_mem_take hx)
    · intro hx
      simp only [generateOutfitForCurrentConditions] at hx
      exact (aux_rawV1_no_rj_boots w h5).2 (List.mem_of_mem_take hx)
    · intro hx
      simp only [generateOutfitForCurrentConditionsV2] at hx
      exact (aux_rawV2_no_rj_boots w tempUnit speedUnit h5).1 (List.mem_of_mem_take hx)
    · intro hx
      simp only [generateOutfitForCurrentConditionsV2] at hx
      exact (aux_rawV2_no_rj_boots w tempUnit speedUnit h5).2 (List.mem_of_mem_take hx)
  · constructor
    · intro hx
      simp only [generateOutfitForCurrentConditions] at hx
      exact aux_rawV1_no_lightrain w (List.mem_of_mem_take hx)
    · intro hx
      simp only [generateOutfitForCurrentConditionsV2] at hx
      exact aux_rawV2_no_lightrain w tempUnit speedUnit (List.mem_of_mem_take hx)

/-- C1 witness: a forecast snapshot with precipitation 60 trips the rain branch
of the amended rule, and a live snapshot with precipitation 30 trips the
live-check umbrella-and-boots behavior. -/
theorem precipitation_rule_amended_witness :
    ((60 : ℚ) > 50 ∧
      "Rain jacket" ∈ (generateOutfitRecommendations ⟨60, "Rainy", 60, 5⟩).outerwear) ∧
    ((30 : ℚ) > 5 ∧
      "Waterproof boots" ∈
        (generateOutfitForCurrentConditions ⟨60, "Clear sky", 30, 5⟩).shoes) :=
  ⟨⟨by norm_num,
    ((precipitation_rule_amended ⟨60, "Rainy", 60, 5⟩ "fahrenheit" "mph").1
      (Or.inl (by norm_num))).1⟩,
   ⟨by norm_num,
    ((precipitation_rule_amended ⟨60, "Clear sky", 30, 5⟩ "fahrenheit" "mph").2.2.2.1
      (by norm_num)).2.1⟩⟩

/-- C8: at 30°F, condition "Snowy", precipitation 10 and wind 5, the forecast
synthesizer recommends the waterproof winter coat among outerwear, exactly the
insulated winter boots as shoes, and winter hat, gloves and scarf among the at
most four accessories. -/
theorem snowy_scenario_forecast :
    "Waterproof winter coat" ∈ (generateOutfitRecommendations ⟨30, "Snowy", 10, 5⟩).outerwear ∧
    (generateOutfitRecommendations ⟨30, "Snowy", 10, 5⟩).shoes = ["Insulated winter boots"] ∧
    "Winter hat" ∈ (generateOutfitRecommendations ⟨30, "Snowy", 10, 5⟩).accessories ∧
    "Gloves" ∈ (generateOutfitRecommendations ⟨30, "Snowy", 10, 5⟩).accessories ∧
    "Scarf" ∈ (generateOutfitRecommendations ⟨30, "Snowy", 10, 5⟩).accessories ∧
    (generateOutfitRecommendations ⟨30, "Snowy", 10, 5⟩).accessories.length ≤ 4 := by
  decide

/-- C5: every one of the four generator variants — the fixed-threshold
forecast handler, the unit-parameterized forecast generator of
src/app/page.tsx, and the two live-check generators — truncates outerwear to
at most 3, shoes to at most 2 and accessories to at most 4 items, and each
truncated list is a prefix of the corresponding pushed list, so insertion
order is preserved. -/
theorem outfit_caps_invariant (w : WeatherData) (tempUnit speedUnit : String) :
    ((generateOutfitRecommendations w).outerwear.length ≤ 3 ∧
      (generateOutfitRecommendations w).shoes.length ≤ 2 ∧
      (generateOutfitRecommendations w).accessories.length ≤ 4 ∧
      (generateOutfitRecommendations w).outerwear <+:
        (rawGenerateOutfitRecommendations w).outerwear ∧
      (generateOutfitRecommendations w).shoes <+: (rawGenerateOutfitRecommendations w).shoes ∧
      (generateOutfitRecommendations w).accessories <+:
        (rawGenerateOutfitRecommendations w).accessories) ∧
    ((generateOutfitRecommendationsV2 w tempUnit speedUnit).outerwear.length ≤ 3 ∧
      (generateOutfitRecommendationsV2 w tempUnit speedUnit).shoes.length ≤ 2 ∧
      (generateOutfitRecommendationsV2 w tempUnit speedUnit).accessories.length ≤ 4 ∧
      (generateOutfitRecommendationsV2 w tempUnit speedUnit).outerwear <+:
        (rawGenerateOutfitRecommendationsV2 w tempUnit speedUnit).outerwear ∧
      (generateOutfitRecommendationsV2 w tempUnit speedUnit).shoes <+:
        (rawGenerateOutfitRecommendationsV2 w tempUnit speedUnit).shoes ∧
      (generateOutfitRecommendationsV2 w tempUnit speedUnit).accessories <+:
        (rawGenerateOutfitRecommendationsV2 w tempUnit speedUnit).accessories) ∧
    ((generateOutfitForCurrentConditions w).outerwear.length ≤ 3 ∧
      (generateOutfitForCurrentConditions w).shoes.length ≤ 2 ∧
      (generateOutfitForCurrentConditions w).accessories.length ≤ 4 ∧
      (generateOutfitForCurrentConditions w).outerwear <+:
        (rawGenerateOutfitForCurrentConditions w).outerwear ∧
      (generateOutfitForCurrentConditions w).shoes <+:
        (rawGenerateOutfitForCurrentConditions w).shoes ∧
      (generateOutfitForCurrentConditions w).accessories <+:
        (rawGenerateOutfitForCurrentConditions w).accessories) ∧
    ((generateOutfitForCurrentConditionsV2 w tempUnit speedUnit).outerwear.length ≤ 3 ∧
      (generateOutfitForCurrentConditionsV2 w tempUnit speedUnit).shoes.length ≤ 2 ∧
      (generateOutfitForCurrentConditionsV2 w tempUnit speedUnit).accessories.length ≤ 4 ∧
      (generateOutfitForCurrentConditionsV2 w tempUnit speedUnit).outerwear <+:
        (rawGenerateOutfitForCurrentConditionsV2 w tempUnit speedUnit).outerwear ∧
      (generateOutfitForCurrentConditionsV2 w tempUnit speedUnit).shoes <+:
        (rawGenerateOutfitForCurrentConditionsV2 w tempUnit speedUnit).shoes ∧
      (generateOutfitForCurrentConditionsV2 w tempUnit speedUnit).accessories <+:
        (rawGenerateOutfitForCurrentConditionsV2 w tempUnit speedUnit).accessories) := by
  refine ⟨⟨?_, ?_, ?_, ?_, ?_, ?_⟩, ⟨?_, ?_, ?_, ?_, ?_, ?_⟩, ⟨?_, ?_, ?_, ?_, ?_, ?_⟩,
      ⟨?_, ?_, ?_, ?_, ?_, ?_⟩⟩ <;>
    simp only [generateOutfitRecommendations, generateOutfitRecommendationsV2,
      generateOutfitForCurrentConditions, generateOutfitForCurrentConditionsV2] <;>
    first
      | exact List.length_take_le _ _
      | exact List.take_prefix _ _

set_option maxHeartbeats 1600000 in
/-- C3: the condition classifier realises exactly the ascending bins
0 → Clear sky, 1–3 → Partly cloudy, 4–48 → Foggy, 49–67 → Rainy, 68–77 → Snowy,
78–82 → Rain showers, 83–86 → Snow showers, 87–99 → Thunderstorm, and maps
every other integer (negative or above 99) to Partly cloudy, so it is total
over ℤ with values in the fixed label set. -/
theorem getWeatherCondition_bins (code : ℤ) :
    (code = 0 → getWeatherCondition code = "Clear sky") ∧
    (1 ≤ code ∧ code ≤ 3 → getWeatherCondition code = "Partly cloudy") ∧
    (4 ≤ code ∧ code ≤ 48 → getWeatherCondition code = "Foggy") ∧
    (49 ≤ code ∧ code ≤ 67 → getWeatherCondition code = "Rainy") ∧
    (68 ≤ code ∧ code ≤ 77 → getWeatherCondition code = "Snowy") ∧
    (78 ≤ code ∧ code ≤ 82 → getWeatherCondition code = "Rain showers") ∧
    (83 ≤ code ∧ code ≤ 86 → getWeatherCondition code = "Snow showers") ∧
    (87 ≤ code ∧ code ≤ 99 → getWeatherCondition code = "Thunderstorm") ∧
    (code < 0 ∨ 99 < code → getWeatherCondition code = "Partly cloudy") ∧
    getWeatherCondition code ∈ ["Clear sky", "Partly cloudy", "Foggy", "Rainy", "Snowy",
      "Rain showers", "Snow showers", "Thunderstorm"] := by
  refine ⟨fun h => ?_, fun h => ?_, fun h => ?_, fun h => ?_, fun h => ?_, fun h => ?_,
    fun h => ?_, fun h => ?_, fun h => ?_, ?_⟩
  · simp only [getWeatherCondition]; split_ifs <;> first | rfl | omega
  · simp only [getWeatherCondition]; split_ifs <;> first | rfl | omega
  · simp only [getWeatherCondition]; split_ifs <;> first | rfl | omega
  · simp only [getWeatherCondition]; split_ifs <;> first | rfl | omega
  · simp only [getWeatherCondition]; split_ifs <;> first | rfl | omega
  · simp only [getWeatherCondition]; split_ifs <;> first | rfl | omega
  · simp only [getWeatherCondition]; split_ifs <;> first | rfl | omega
  · simp only [getWeatherCondition]; split_ifs <;> first | rfl | omega
  · simp only [getWeatherCondition]; split_ifs <;> first | rfl | omega
  · simp only [getWeatherCondition]; split_ifs <;> decide

/-- C3 witness: codes 150 and −1 both fall in the catch-all bin and classify as
Partly cloudy. -/
theorem getWeatherCondition_bins_witness :
    ((99 : ℤ) < 150 ∧ getWeatherCondition 150 = "Partly cloudy") ∧
    ((-1 : ℤ) < 0 ∧ getWeatherCondition (-1) = "Partly cloudy") :=
  ⟨⟨by norm_num, (getWeatherCondition_bins 150).2.2.2.2.2.2.2.2.1 (Or.inr (by norm_num))⟩,
   ⟨by norm_num, (getWeatherCondition_bins (-1)).2.2.2.2.2.2.2.2.1 (Or.inl (by norm_num))⟩⟩

/-- C9: both live-check route handlers return the hard-coded update decision
shouldUpdate = true with empty reasons on every successful request, however
small the deltas are — in particular even when the snapshots are identical,
where the decision function `shouldUpdateOutfit` reports no update. -/
theorem liveCheck_updateDecision_constant :
    (∀ (current forecastWeather : WeatherData) (g : GranularFactors) (tempUnit : String),
      (checkCurrentWeatherResponse current forecastWeather g tempUnit).updateDecision =
        ⟨true, []⟩) ∧
    (∀ (current forecastWeather : WeatherData) (g : GranularFactors)
        (tempUnit speedUnit : String),
      (checkCurrentWeatherResponseV2 current forecastWeather g tempUnit
        speedUnit).updateDecision = ⟨true, []⟩) ∧
    (∀ t wsp p : ℚ, (shouldUpdateOutfit t t wsp wsp p p).shouldUpdate = false) := by
  refine ⟨fun _ _ _ _ => rfl, fun _ _ _ _ _ => rfl, fun t wsp p => ?_⟩
  simp [shouldUpdateOutfit, jsAbs]

/-- C10: because "US" is on the Fahrenheit allow-list and matching is
case-insensitive substring containment, every country whose lowercased name
contains "us" gets Fahrenheit and mph; moreover the two locale functions agree
(Fahrenheit exactly when mph) on every input. -/
theorem locale_us_substring :
    (∀ country : String, jsIncludes (jsToLower country) "us" = true →
      getTemperatureUnit country = "fahrenheit" ∧ getSpeedUnit country = "mph") ∧
    (∀ country : String,
      getTemperatureUnit country = "fahrenheit" ↔ getSpeedUnit country = "mph") := by
  constructor
  · intro country h
    have hUS : usesFahrenheit country = true := by
      have h4 : jsIncludes (jsToLower country) (jsToLower "US") = true := by
        rw [show jsToLower "US" = "us" from rfl]
        exact h
      simp only [usesFahrenheit, FAHRENHEIT_COUNTRIES, List.any_cons, List.any_nil]
      rw [h4]
      simp
    constructor
    · simp only [getTemperatureUnit, hUS, if_true]
    · simp only [getSpeedUnit, hUS, if_true]
  · intro country
    by_cases h : usesFahrenheit country <;>
      simp only [getTemperatureUnit, getSpeedUnit, h, if_true, if_false] <;>
      constructor <;> intro hc <;> first | rfl | (exfalso; revert hc; decide)

/-- C10 witness: "Australia", "Russia", "Austria" and "Belarus" all contain
"us" after lowercasing and therefore get Fahrenheit and mph. -/
theorem locale_us_substring_witness :
    (jsIncludes (jsToLower "Australia") "us" = true ∧
      getTemperatureUnit "Australia" = "fahrenheit" ∧ getSpeedUnit "Australia" = "mph") ∧
    (jsIncludes (jsToLower "Belarus") "us" = true ∧
      getTemperatureUnit "Belarus" = "fahrenheit" ∧ getSpeedUnit "Belarus" = "mph") :=
  ⟨⟨by decide, locale_us_substring.1 "Australia" (by decide)⟩,
   ⟨by decide, locale_us_substring.1 "Belarus" (by decide)⟩⟩

/-- C4: the update decision trips exactly when a 5/5/20 threshold is exceeded,
emits exactly one reason (with the absolute delta interpolated) per tripped
threshold, and grades severity "high" exactly when a 10/10/40 threshold trips,
"moderate" otherwise. -/
theorem shouldUpdateOutfit_spec (originalTemp currentTemp originalWindSpeed currentWindSpeed
    originalPrecipitation currentPrecipitation : ℚ) :
    ((shouldUpdateOutfit originalTemp currentTemp originalWindSpeed currentWindSpeed
        originalPrecipitation currentPrecipitation).shouldUpdate = true ↔
      |currentTemp - originalTemp| > 5 ∨ |currentWindSpeed - originalWindSpeed| > 5 ∨
        |currentPrecipitation - originalPrecipitation| > 20) ∧
    ((shouldUpdateOutfit originalTemp currentTemp originalWindSpeed currentWindSpeed
        originalPrecipitation currentPrecipitation).reasons.length =
      (if |currentTemp - originalTemp| > 5 then 1 else 0) +
        (if |currentWindSpeed - originalWindSpeed| > 5 then 1 else 0) +
        (if |currentPrecipitation - originalPrecipitation| > 20 then 1 else 0)) ∧
    (|currentTemp - originalTemp| > 5 →
      tempChangeReason |currentTemp - originalTemp| ∈
        (shouldUpdateOutfit originalTemp currentTemp originalWindSpeed currentWindSpeed
          originalPrecipitation currentPrecipitation).reasons) ∧
    (|currentWindSpeed - originalWindSpeed| > 5 →
      windChangeReason |currentWindSpeed - originalWindSpeed| ∈
        (shouldUpdateOutfit originalTemp currentTemp originalWindSpeed currentWindSpeed
          originalPrecipitation currentPrecipitation).reasons) ∧
    (|currentPrecipitation - originalPrecipitation| > 20 →
      precipChangeReason |currentPrecipitation - originalPrecipitation| ∈
        (shouldUpdateOutfit originalTemp currentTemp originalWindSpeed currentWindSpeed
          originalPrecipitation currentPrecipitation).reasons) ∧
    ((shouldUpdateOutfit originalTemp currentTemp originalWindSpeed currentWindSpeed
        originalPrecipitation currentPrecipitation).severity = "high" ↔
      |currentTemp - originalTemp| > 10 ∨ |currentWindSpeed - originalWindSpeed| > 10 ∨
        |currentPrecipitation - originalPrecipitation| > 40) ∧
    ((shouldUpdateOutfit originalTemp currentTemp originalWindSpeed currentWindSpeed
        originalPrecipitation currentPrecipitation).severity = "moderate" ↔
      ¬(|currentTemp - originalTemp| > 10 ∨ |currentWindSpeed - originalWindSpeed| > 10 ∨
        |currentPrecipitation - originalPrecipitation| > 40)) := by
  refine ⟨?_, ?_, ?_, ?_, ?_, ?_, ?_⟩
  · simp [shouldUpdateOutfit, aux_jsAbs_eq_abs]
  · simp only [shouldUpdateOutfit, aux_jsAbs_eq_abs]
    split_ifs <;> simp
  · intro h
    simp [shouldUpdateOutfit, aux_jsAbs_eq_abs, h]
  · intro h
    simp [shouldUpdateOutfit, aux_jsAbs_eq_abs, h]
  · intro h
    simp [shouldUpdateOutfit, aux_jsAbs_eq_abs, h]
  · simp only [shouldUpdateOutfit, aux_jsAbs_eq_abs]
    split_ifs with h <;> simp [h]
  · simp only [shouldUpdateOutfit, aux_jsAbs_eq_abs]
    split_ifs with h <;> simp [h]

/-- C4 witness: a 10-degree temperature change alone trips the temperature
threshold, puts its reason in the list and grades as moderate. -/
theorem shouldUpdateOutfit_spec_witness :
    |(10 : ℚ) - 0| > 5 ∧
    tempChangeReason 10 ∈ (shouldUpdateOutfit 0 10 0 0 0 0).reasons := by
  have h := (shouldUpdateOutfit_spec 0 10 0 0 0 0).2.2.1 (by norm_num)
  rw [show |(10 : ℚ) - 0| = 10 by norm_num] at h
  exact ⟨by norm_num, h⟩

/-- C6: wind chill returns the input temperature unchanged unless the
unit-specific applicability condition holds (metric: at most 10° with wind at
least 4.8; imperial: at most 50° with wind at least 3), and when it holds it
returns the stated formula, with the 0.16-power of the wind speed abstracted
as `pw`. -/
theorem calculateWindChill_spec (pw : ℚ → ℚ) (temp windSpeed : ℚ) :
    (¬(temp ≤ 10 ∧ 4.8 ≤ windSpeed) → calculateWindChill pw temp windSpeed "celsius" = temp) ∧
    (temp ≤ 10 ∧ 4.8 ≤ windSpeed →
      calculateWindChill pw temp windSpeed "celsius" =
        13.12 + 0.6215 * temp - 11.37 * pw windSpeed + 0.3965 * temp * pw windSpeed) ∧
    (¬(temp ≤ 50 ∧ 3 ≤ windSpeed) → calculateWindChill pw temp windSpeed "fahrenheit" = temp) ∧
    (temp ≤ 50 ∧ 3 ≤ windSpeed →
      calculateWindChill pw temp windSpeed "fahrenheit" =
        35.74 + 0.6215 * temp - 35.75 * pw windSpeed + 0.4275 * temp * pw windSpeed) := by
  refine ⟨?_, ?_, ?_, ?_⟩
  · intro h
    simp only [calculateWindChill]
    rw [if_pos (show (("celsius" : String) == "celsius") = true from rfl)]
    rcases le_or_lt temp 10 with h10 | h10
    · refine if_pos (Or.inr ?_)
      push_neg at h
      exact h h10
    · exact if_pos (Or.inl h10)
  · intro h
    simp only [calculateWindChill]
    rw [if_pos (show (("celsius" : String) == "celsius") = true from rfl)]
    refine if_neg ?_
    push_neg
    exact ⟨h.1, h.2⟩
  · intro h
    simp only [calculateWindChill]
    rw [if_neg (show ¬(("fahrenheit" : String) == "celsius") = true by decide)]
    rcases le_or_lt temp 50 with h50 | h50
    · refine if_pos (Or.inr ?_)
      push_neg at h
      exact h h50
    · exact if_pos (Or.inl h50)
  · intro h
    simp only [calculateWindChill]
    rw [if_neg (show ¬(("fahrenheit" : String) == "celsius") = true by decide)]
    refine if_neg ?_
    push_neg
    exact ⟨h.1, h.2⟩

/-- C6 witness: at 5° with wind 10 (metric, applicable region) the formula is
returned, instantiating the abstract power map with the identity. -/
theorem calculateWindChill_spec_witness :
    ((5 : ℚ) ≤ 10 ∧ (4.8 : ℚ) ≤ 10) ∧
    calculateWindChill (fun wsp => wsp) 5 10 "celsius" =
      13.12 + 0.6215 * 5 - 11.37 * 10 + 0.3965 * 5 * 10 :=
  ⟨⟨by norm_num, by norm_num⟩,
   (calculateWindChill_spec (fun wsp => wsp) 5 10).2.1 ⟨by norm_num, by norm_num⟩⟩

/-- C7: swapping forecast and actual negates every per-factor difference, so
the absolute differences and the significance flags are unchanged, and
whenever temperature or wind is significant its summary direction word flips
warmer↔cooler respectively windier↔calmer. -/
theorem compareSnapshots_swap (fT : ℚ) (fC : String) (fP fW : ℚ) (a : WeatherData)
    (c1 c2 : WeatherComparison)
    (h1 : c1 = compareSnapshots fT fC fP fW a)
    (h2 : c2 = compareSnapshots a.temperature a.condition a.precipitation a.windSpeed
      ⟨fT, fC, fP, fW⟩) :
    (|c1.temperature.difference| = |c2.temperature.difference| ∧
      |c1.windSpeed.difference| = |c2.windSpeed.difference| ∧
      |c1.precipitation.difference| = |c2.precipitation.difference|) ∧
    (c1.temperature.significant = c2.temperature.significant ∧
      c1.windSpeed.significant = c2.windSpeed.significant ∧
      c1.precipitation.significant = c2.precipitation.significant) ∧
    (c1.temperature.significant = true →
      (directionWordTemp c1 = "warmer" ↔ directionWordTemp c2 = "cooler") ∧
      (directionWordTemp c1 = "cooler" ↔ directionWordTemp c2 = "warmer")) ∧
    (c1.windSpeed.significant = true →
      (directionWordWind c1 = "windier" ↔ directionWordWind c2 = "calmer") ∧
      (directionWordWind c1 = "calmer" ↔ directionWordWind c2 = "windier")) := by
  subst h1
  subst h2
  simp only [compareSnapshots, directionWordTemp, directionWordWind]
  refine ⟨⟨?_, ?_, ?_⟩, ⟨?_, ?_, ?_⟩, ?_, ?_⟩
  · rw [abs_sub_comm]
  · rw [abs_sub_comm]
  · rw [abs_sub_comm]
  · simp only [aux_jsAbs_eq_abs]
    rw [abs_sub_comm]
  · simp only [aux_jsAbs_eq_abs]
    rw [abs_sub_comm]
  · simp only [aux_jsAbs_eq_abs]
    rw [abs_sub_comm]
  · intro hsig
    have hd : jsAbs (a.temperature - fT) > 5 := of_decide_eq_true hsig
    rw [aux_jsAbs_eq_abs] at hd
    rcases lt_trichotomy (a.temperature - fT) 0 with hlt | heq | hgt
    · rw [if_neg (by linarith : ¬a.temperature - fT > 0),
        if_pos (by linarith : fT - a.temperature > 0)]
      exact ⟨by decide, by decide⟩
    · exfalso
      rw [heq] at hd
      norm_num at hd
    · rw [if_pos hgt, if_neg (by linarith : ¬fT - a.temperature > 0)]
      exact ⟨by decide, by decide⟩
  · intro hsig
    have hd : jsAbs (a.windSpeed - fW) > 5 := of_decide_eq_true hsig
    rw [aux_jsAbs_eq_abs] at hd
    rcases lt_trichotomy (a.windSpeed - fW) 0 with hlt | heq | hgt
    · rw [if_neg (by linarith : ¬a.windSpeed - fW > 0),
        if_pos (by linarith : fW - a.windSpeed > 0)]
      exact ⟨by decide, by decide⟩
    · exfalso
      rw [heq] at hd
      norm_num at hd
    · rw [if_pos hgt, if_neg (by linarith : ¬fW - a.windSpeed > 0)]
      exact ⟨by decide, by decide⟩

/-- C7 witness: forecast 60° versus actual 68° (and wind 0 versus 10) is
significant in both factors; the summary direction words are "warmer" and
"windier", and after swapping the snapshots they become "cooler" and
"calmer". -/
theorem compareSnapshots_swap_witness :
    (compareSnapshots 60 "Clear sky" 0 0 ⟨68, "Clear sky", 0, 10⟩).temperature.significant =
      true ∧
    directionWordTemp (compareSnapshots 60 "Clear sky" 0 0 ⟨68, "Clear sky", 0, 10⟩) =
      "warmer" ∧
    directionWordTemp (compareSnapshots 68 "Clear sky" 0 10 ⟨60, "Clear sky", 0, 0⟩) =
      "cooler" ∧
    directionWordWind (compareSnapshots 68 "Clear sky" 0 10 ⟨60, "Clear sky", 0, 0⟩) =
      "calmer" := by
  have h := compareSnapshots_swap 60 "Clear sky" 0 0 ⟨68, "Clear sky", 0, 10⟩ _ _ rfl rfl
  have hsig1 : (compareSnapshots 60 "Clear sky" 0 0
      ⟨68, "Clear sky", 0, 10⟩).temperature.significant = true := by
    norm_num [compareSnapshots, jsAbs]
  have hsig2 : (compareSnapshots 60 "Clear sky" 0 0
      ⟨68, "Clear sky", 0, 10⟩).windSpeed.significant = true := by
    norm_num [compareSnapshots, jsAbs]
  have hw1 : directionWordTemp (compareSnapshots 60 "Clear sky" 0 0
      ⟨68, "Clear sky", 0, 10⟩) = "warmer" := by
    norm_num [compareSnapshots, directionWordTemp]
  have hww1 : directionWordWind (compareSnapshots 60 "Clear sky" 0 0
      ⟨68, "Clear sky", 0, 10⟩) = "windier" := by
    norm_num [compareSnapshots, directionWordWind]
  have h3 := (h.2.2.1 hsig1).1.mp hw1
  have h4 := (h.2.2.2 hsig2).1.mp hww1
  exact ⟨hsig1, hw1, h3, h4⟩

/-- C2 (code bug): the claim and the first live-check variant gate the
feels-like clause on the 40°F cold floor, but the second live-check variant —
whose own comment says "below 40°F / 4°C" — compares against the 75°F hot
floor: at 60°F with feels-like 65 it emits the clause although 60 is not
below 40, while the first variant correctly does not. -/
theorem feelsLike_gate_v2_bug :
    "Feels like 65°F (warmer than actual temperature)." ∈
      generateResponseMessagePartsV2 "S" ⟨65, 0⟩ ⟨60, "Clear sky", 0, 5⟩ "fahrenheit" ∧
    "Feels like 65°F (warmer than actual temperature)." ∉
      generateResponseMessageParts "S" ⟨65, 0⟩ ⟨60, "Clear sky", 0, 5⟩ "fahrenheit" ∧
    ¬((60 : ℚ) < COLD_TEMP_F) ∧ |(65 : ℚ) - 60| ≥ 3 := by
  refine ⟨?_, ?_, by norm_num [COLD_TEMP_F], by norm_num⟩
  · norm_num [generateResponseMessagePartsV2, jsAbs, HOT_TEMP_F]
    decide
  · norm_num [generateResponseMessageParts, jsAbs, COLD_TEMP_F, HOT_TEMP_F]
    decide
